import Mathlib

/-!
Verification of the real-time coordinator of the chat-server repository:
connection/presence tracking (`userSockets`, `userLoginTime`) and the
two-party call-session state machine (`activeCallSessions`), as implemented
by the socket event handlers `user-online`, `user-offline`, `call:initiate`
(with its 30-second no-answer timer), `call:accept`, `call:reject`,
`call:end` and `disconnect`.

JavaScript objects used as string-keyed maps are embedded as association
lists with object semantics: property assignment replaces the value at an
existing key in place (or appends a fresh key), `delete` removes the key,
lookup returns the value at the key when present.
-/

namespace ChatServer

/-- Status of one `activeCallSessions` entry: `"calling"`, `"ringing"`
or `"connected"` in the source. -/
inductive CallStatus where
  | calling
  | ringing
  | connected
deriving DecidableEq

/-- One entry of `activeCallSessions`.  `noAnswerTimeout` holds the token of
the pending no-answer timer when one is armed (the `Timeout` object in the
source, identified here by a numeric token). -/
structure CallSession where
  sessionId : String
  callerId : String
  receiverId : String
  status : CallStatus
  startTime : Nat
  noAnswerTimeout : Option Nat
deriving DecidableEq

/-- Outbound socket events emitted by the coordinator. -/
inductive OutEvent where
  | userStatusChanged (userId : String) (status : String) (loginTime : Option Nat)
  | callIncoming (callerId receiverId offer callerName callerProfile chatId sessionId : String)
  | callAnswerReceived (callerId receiverId answer receiverName : String)
  | callAcceptedNotice (callerId receiverId : String)
  | callRejected (callerId receiverId reason receiverName : String)
  | callEnded (callerId receiverId reason : String)
  | callUserOffline (receiverId message : String)
  | callBusy (receiverId message : String)
  | callSessionNotFound (callerId receiverId : String)
deriving DecidableEq

/-- How an emission is routed: `io.to("user:" ++ uid).emit` (`toRoom`),
`socket.emit` back to the triggering socket (`toSocket`), `io.emit` to all
(`broadcastAll`), or `socket.broadcast.emit` to all but the triggering
socket (`broadcastOthers`). -/
inductive Emit where
  | toRoom (userId : String) (ev : OutEvent)
  | toSocket (ev : OutEvent)
  | broadcastAll (ev : OutEvent)
  | broadcastOthers (ev : OutEvent)
deriving DecidableEq

/-- Outcome of the external-store write (`User.findByIdAndUpdate`):
the document was found and updated, the lookup returned `null`, or the
awaited promise rejected (caught by the handler's `catch`). -/
inductive StoreResult where
  | foundUser
  | noUser
  | writeError
deriving DecidableEq

/-- The coordinator's three in-memory maps. -/
structure ServerState where
  activeCallSessions : List (String × CallSession)
  userSockets : List (String × String)
  userLoginTime : List (String × Nat)
deriving DecidableEq

/-- Result of running one handler: the new state, the emitted events in
program order, the tokens passed to `clearTimeout`, and the timers armed by
`setTimeout` as (token, delay in ms). -/
structure HandlerResult where
  state : ServerState
  emits : List Emit
  cancels : List Nat
  arms : List (Nat × Nat)
deriving DecidableEq

/-- Property read `obj[k]` on a JS object. -/
def objGet {α : Type} : List (String × α) → String → Option α
  | [], _ => none
  | p :: rest, k => if p.1 = k then some p.2 else objGet rest k

/-- Property assignment `obj[k] = v` on a JS object: replaces in place when
the key exists, appends otherwise. -/
def objSet {α : Type} : List (String × α) → String → α → List (String × α)
  | [], k, v => [(k, v)]
  | p :: rest, k, v => if p.1 = k then (k, v) :: rest else p :: objSet rest k v

/-- Property removal `delete obj[k]` on a JS object. -/
def objDelete {α : Type} : List (String × α) → String → List (String × α)
  | [], _ => []
  | p :: rest, k => if p.1 = k then objDelete rest k else p :: objDelete rest k

/-- JavaScript `a || b` on a (possibly `undefined`) number: used for
`loginTime || Date.now()`, where `0` is falsy. -/
def jsOr (o : Option Nat) (d : Nat) : Nat :=
  match o with
  | none => d
  | some t => if t = 0 then d else t

/-- JavaScript `a || b` on a string, where the empty string is falsy:
used for `receiverName || "User"`. -/
def jsOrStr (a b : String) : String :=
  if a = "" then b else a

/-- The guard `userLoginTime[uid] && userLoginTime[uid] === socket.loginTime`:
a stored epoch exists, is truthy, and strictly equals the socket's epoch. -/
def epochGuard (stored : Option Nat) (sockEpoch : Option Nat) : Bool :=
  match stored with
  | none => false
  | some e => decide (e ≠ 0) && decide (sockEpoch = some e)

/-- The busy test `session && session.status === "connected"`. -/
def sessionConnected : Option CallSession → Bool
  | some cs => cs.status = CallStatus.connected
  | none => false

/-- Tokens passed to `clearTimeout` for `session?.noAnswerTimeout`
(cleared only when a session with a pending timer exists). -/
def timeoutToks : Option CallSession → List Nat
  | some cs =>
    match cs.noAnswerTimeout with
    | some t => [t]
    | none => []
  | none => []

/-- The eviction step
`if (session && session.status !== "connected") delete activeCallSessions[k]`,
applied to the session value looked up before any eviction. -/
def clearPending (tbl : List (String × CallSession)) (sess : Option CallSession)
    (k : String) : List (String × CallSession) :=
  match sess with
  | some cs => if cs.status ≠ CallStatus.connected then objDelete tbl k else tbl
  | none => tbl

/-- The initial in-memory state: all three maps start empty. -/
def initialState : ServerState :=
  { activeCallSessions := [], userSockets := [], userLoginTime := [] }

/-- The `user-online` handler.  The socket joins the user's room and both
registry maps are updated synchronously; then the store write is awaited,
and the online broadcast is emitted only when the write succeeded and found
the user document (`if (!user) return`; a rejected promise is caught). -/
def userOnline (uid : String) (loginTime : Option Nat) (socketId : String)
    (now : Nat) (store : StoreResult) (s : ServerState) : HandlerResult :=
  let epoch := jsOr loginTime now
  let s' : ServerState :=
    { s with
      userSockets := objSet s.userSockets uid socketId
      userLoginTime := objSet s.userLoginTime uid epoch }
  match store with
  | StoreResult.foundUser =>
    { state := s'
      emits := [Emit.broadcastAll (OutEvent.userStatusChanged uid "online" (some epoch))]
      cancels := [], arms := [] }
  | StoreResult.noUser => { state := s', emits := [], cancels := [], arms := [] }
  | StoreResult.writeError => { state := s', emits := [], cancels := [], arms := [] }

/-- The `user-offline` handler.  Under the epoch guard both registry entries
are deleted, the store write is awaited (its result is not inspected, so a
missing user document still broadcasts), and the offline broadcast is
emitted unless the write rejected; a stale epoch is a complete no-op. -/
def userOffline (uid : String) (sockEpoch : Option Nat) (store : StoreResult)
    (s : ServerState) : HandlerResult :=
  if epochGuard (objGet s.userLoginTime uid) sockEpoch then
    let s' : ServerState :=
      { s with
        userSockets := objDelete s.userSockets uid
        userLoginTime := objDelete s.userLoginTime uid }
    match store with
    | StoreResult.writeError => { state := s', emits := [], cancels := [], arms := [] }
    | _ =>
      { state := s'
        emits := [Emit.broadcastOthers (OutEvent.userStatusChanged uid "offline" none)]
        cancels := [], arms := [] }
  else
    { state := s, emits := [], cancels := [], arms := [] }

/-- The `call:initiate` handler.  `now` is `Date.now()` and `tok` the token
of the timer armed by `setTimeout`.  The two fresh entries are created with
`noAnswerTimeout := some tok`; in the source the field is assigned on both
entries immediately after creation, before anything observes them. -/
def callInitiate (callerId receiverId offer callerName callerProfile chatId : String)
    (now : Nat) (tok : Nat) (s : ServerState) : HandlerResult :=
  match objGet s.userSockets receiverId with
  | none =>
    { state := s
      emits := [Emit.toSocket (OutEvent.callUserOffline receiverId "User is offline")]
      cancels := [], arms := [] }
  | some _ =>
    let receiverSession := objGet s.activeCallSessions receiverId
    if sessionConnected receiverSession then
      { state := s
        emits := [Emit.toSocket (OutEvent.callBusy receiverId "User is already on another call")]
        cancels := [], arms := [] }
    else
      let callerSession := objGet s.activeCallSessions callerId
      if sessionConnected callerSession then
        { state := s
          emits := [Emit.toSocket (OutEvent.callBusy receiverId "You are already in a call")]
          cancels := [], arms := [] }
      else
        let t1 := clearPending s.activeCallSessions callerSession callerId
        let t2 := clearPending t1 receiverSession receiverId
        let callSessionId := callerId ++ "-" ++ receiverId ++ "-" ++ toString now
        let t3 := objSet t2 callerId
          { sessionId := callSessionId, callerId := callerId, receiverId := receiverId
            status := CallStatus.calling, startTime := now, noAnswerTimeout := some tok }
        let t4 := objSet t3 receiverId
          { sessionId := callSessionId, callerId := callerId, receiverId := receiverId
            status := CallStatus.ringing, startTime := now, noAnswerTimeout := some tok }
        { state := { s with activeCallSessions := t4 }
          emits := [Emit.toRoom receiverId
            (OutEvent.callIncoming callerId receiverId offer callerName callerProfile
              chatId callSessionId)]
          cancels := [], arms := [(tok, 30000)] }

/-- The body of the `setTimeout` callback armed by `call:initiate`, run when
the 30-second no-answer timer fires with `callerId`/`receiverId` captured:
it re-reads the receiver's session and acts only when it is still ringing. -/
def noAnswerTimerFire (callerId receiverId : String) (s : ServerState) : HandlerResult :=
  match objGet s.activeCallSessions receiverId with
  | some currentReceiverSession =>
    if currentReceiverSession.status = CallStatus.ringing then
      { state :=
          { s with activeCallSessions :=
              objDelete (objDelete s.activeCallSessions callerId) receiverId }
        emits := [Emit.toRoom callerId (OutEvent.callEnded callerId receiverId "no_answer"),
                  Emit.toRoom receiverId (OutEvent.callEnded callerId receiverId "no_answer_timeout")]
        cancels := [], arms := [] }
    else
      { state := s, emits := [], cancels := [], arms := [] }
  | none => { state := s, emits := [], cancels := [], arms := [] }

/-- The `call:accept` handler: fails with `call:session-not-found` to the
accepting socket when either entry is absent; otherwise clears the timers,
sets both statuses to connected, drops the stored tokens, and emits the
answer plus the two acceptance notices. -/
def callAccept (callerId receiverId answer receiverName : String)
    (s : ServerState) : HandlerResult :=
  match objGet s.activeCallSessions callerId, objGet s.activeCallSessions receiverId with
  | some callerSession, some receiverSession =>
    let cancels := timeoutToks (some callerSession) ++ timeoutToks (some receiverSession)
    let t1 := objSet s.activeCallSessions callerId
      { callerSession with status := CallStatus.connected, noAnswerTimeout := none }
    let t2 := objSet t1 receiverId
      { receiverSession with status := CallStatus.connected, noAnswerTimeout := none }
    { state := { s with activeCallSessions := t2 }
      emits := [Emit.toRoom callerId
                  (OutEvent.callAnswerReceived callerId receiverId answer receiverName),
                Emit.toRoom callerId (OutEvent.callAcceptedNotice callerId receiverId),
                Emit.toRoom receiverId (OutEvent.callAcceptedNotice callerId receiverId)]
      cancels := cancels, arms := [] }
  | _, _ =>
    { state := s
      emits := [Emit.toSocket (OutEvent.callSessionNotFound callerId receiverId)]
      cancels := [], arms := [] }

/-- The `call:reject` handler: no precondition; clears the timers when
present, unconditionally deletes both entries, notifies the caller with
`call:rejected` and the receiver with `call:ended{rejected_by_user}`. -/
def callReject (callerId receiverId reason receiverName : String)
    (s : ServerState) : HandlerResult :=
  let callerSession := objGet s.activeCallSessions callerId
  let receiverSession := objGet s.activeCallSessions receiverId
  { state :=
      { s with activeCallSessions :=
          objDelete (objDelete s.activeCallSessions callerId) receiverId }
    emits := [Emit.toRoom callerId
                (OutEvent.callRejected callerId receiverId reason (jsOrStr receiverName "User")),
              Emit.toRoom receiverId (OutEvent.callEnded callerId receiverId "rejected_by_user")]
    cancels := timeoutToks callerSession ++ timeoutToks receiverSession
    arms := [] }

/-- The `call:end` handler: clears the timers, deletes each party's entry
only when its stored `(callerId, receiverId)` pair matches the pair being
ended, then notifies receiver and caller with `call:ended{reason}` whenever
the respective id is truthy (non-empty). -/
def callEnd (callerId receiverId reason : String) (s : ServerState) : HandlerResult :=
  let callerSession := objGet s.activeCallSessions callerId
  let receiverSession := objGet s.activeCallSessions receiverId
  let t1 :=
    match callerSession with
    | some cs =>
      if cs.callerId = callerId ∧ cs.receiverId = receiverId then
        objDelete s.activeCallSessions callerId
      else s.activeCallSessions
    | none => s.activeCallSessions
  let t2 :=
    match receiverSession with
    | some rs =>
      if rs.callerId = callerId ∧ rs.receiverId = receiverId then objDelete t1 receiverId
      else t1
    | none => t1
  let receiverEmits :=
    if receiverId ≠ "" then [Emit.toRoom receiverId (OutEvent.callEnded callerId receiverId reason)]
    else []
  let callerEmits :=
    if callerId ≠ "" then [Emit.toRoom callerId (OutEvent.callEnded callerId receiverId reason)]
    else []
  { state := { s with activeCallSessions := t2 }
    emits := receiverEmits ++ callerEmits
    cancels := timeoutToks callerSession ++ timeoutToks receiverSession
    arms := [] }

/-- The `disconnect` handler for a socket whose local fields are
`sockUserId`/`sockEpoch`.  The body runs only under `if (userId)` — a
socket with no stored userId, or with the falsy empty string, does
nothing.  Then, under the epoch guard: if the user holds a call entry, the
other participant (computed from that entry) is sent
`call:ended{disconnected}` when truthy, the entry's timer is cleared and
both parties' entries are deleted; then the registry entries are removed,
the store write is awaited and the offline broadcast emitted unless the
write rejected. -/
def disconnect (sockUserId : Option String) (sockEpoch : Option Nat)
    (store : StoreResult) (s : ServerState) : HandlerResult :=
  match sockUserId with
  | none => { state := s, emits := [], cancels := [], arms := [] }
  | some userId =>
    if userId ≠ "" then
      if epochGuard (objGet s.userLoginTime userId) sockEpoch then
        let userSession := objGet s.activeCallSessions userId
        let callPart :
            List (String × CallSession) × List Emit × List Nat :=
          match userSession with
          | some us =>
            let otherUserId := if us.callerId = userId then us.receiverId else us.callerId
            let callEmits :=
              if otherUserId ≠ "" then
                [Emit.toRoom otherUserId
                  (OutEvent.callEnded us.callerId us.receiverId "disconnected")]
              else []
            (objDelete (objDelete s.activeCallSessions userId) otherUserId, callEmits,
              timeoutToks (some us))
          | none => (s.activeCallSessions, [], [])
        let offlineEmits :=
          match store with
          | StoreResult.writeError => []
          | _ => [Emit.broadcastOthers (OutEvent.userStatusChanged userId "offline" none)]
        { state :=
            { activeCallSessions := callPart.1
              userSockets := objDelete s.userSockets userId
              userLoginTime := objDelete s.userLoginTime userId }
          emits := callPart.2.1 ++ offlineEmits
          cancels := callPart.2.2
          arms := [] }
      else
        { state := s, emits := [], cancels := [], arms := [] }
    else
      { state := s, emits := [], cancels := [], arms := [] }

/-- States reachable from the empty initial state by any sequence of
`user-online`, `user-offline`, `call:initiate`, `call:accept`,
`call:reject`, `call:end`, timer-fire and `disconnect` events, with
arbitrary payloads, socket-local fields, clock values, timer tokens and
external-store outcomes. -/
inductive Reachable : ServerState → Prop where
  | empty : Reachable initialState
  | online (uid : String) (loginTime : Option Nat) (socketId : String) (now : Nat)
      (store : StoreResult) {s : ServerState} (h : Reachable s) :
      Reachable (userOnline uid loginTime socketId now store s).state
  | offline (uid : String) (sockEpoch : Option Nat) (store : StoreResult)
      {s : ServerState} (h : Reachable s) :
      Reachable (userOffline uid sockEpoch store s).state
  | initiate (callerId receiverId offer callerName callerProfile chatId : String)
      (now tok : Nat) {s : ServerState} (h : Reachable s) :
      Reachable (callInitiate callerId receiverId offer callerName callerProfile
        chatId now tok s).state
  | timerFire (callerId receiverId : String) {s : ServerState} (h : Reachable s) :
      Reachable (noAnswerTimerFire callerId receiverId s).state
  | accept (callerId receiverId answer receiverName : String) {s : ServerState}
      (h : Reachable s) :
      Reachable (callAccept callerId receiverId answer receiverName s).state
  | reject (callerId receiverId reason receiverName : String) {s : ServerState}
      (h : Reachable s) :
      Reachable (callReject callerId receiverId reason receiverName s).state
  | ended (callerId receiverId reason : String) {s : ServerState} (h : Reachable s) :
      Reachable (callEnd callerId receiverId reason s).state
  | disc (sockUserId : Option String) (sockEpoch : Option Nat) (store : StoreResult)
      {s : ServerState} (h : Reachable s) :
      Reachable (disconnect sockUserId sockEpoch store s).state

/-- The key list of an association-list map has no duplicates: the
representation invariant of a JS object. -/
def keysNodup {α : Type} (l : List (String × α)) : Prop :=
  (l.map Prod.fst).Nodup

/-- Selects the `call:ended` emissions of a handler run. -/
def isCallEnded : Emit → Bool
  | Emit.toRoom _ (OutEvent.callEnded _ _ _) => true
  | Emit.toSocket (OutEvent.callEnded _ _ _) => true
  | Emit.broadcastAll (OutEvent.callEnded _ _ _) => true
  | Emit.broadcastOthers (OutEvent.callEnded _ _ _) => true
  | _ => false

/-- Demo execution: users A, B, C announce themselves online. -/
def demoS3 : ServerState :=
  (userOnline "C" (some 3) "sockC" 3 StoreResult.foundUser
    (userOnline "B" (some 2) "sockB" 2 StoreResult.foundUser
      (userOnline "A" (some 1) "sockA" 1 StoreResult.foundUser initialState).state).state).state

/-- Demo execution, continued: A calls B (session `A-B-10`, timer token 100). -/
def demoS4 : ServerState :=
  (callInitiate "A" "B" "offerAB" "Alice" "profA" "chat1" 10 100 demoS3).state

/-- Demo execution, continued: before B answers, C calls B.  B's ringing
entry for the A call is evicted and re-created for the C call (session
`C-B-20`, timer token 200), while A keeps its stale `A-B-10` entry. -/
def demoS5 : ServerState :=
  (callInitiate "C" "B" "offerCB" "Carol" "profC" "chat2" 20 200 demoS4).state

/-- The stale entry A keeps in `demoS5`: its pairing with B under session
`A-B-10`. -/
def staleAB : CallSession :=
  { sessionId := "A-B-10", callerId := "A", receiverId := "B",
    status := CallStatus.calling, startTime := 10, noAnswerTimeout := some 100 }

/-- B's entry in `demoS5`: the ringing pairing with C under session
`C-B-20`. -/
def freshCB : CallSession :=
  { sessionId := "C-B-20", callerId := "C", receiverId := "B",
    status := CallStatus.ringing, startTime := 20, noAnswerTimeout := some 200 }

/-- Busy demo: only A and C are online (B never announces itself); A calls
C and C accepts, so both hold `connected` entries. -/
def busyS4 : ServerState :=
  (callAccept "A" "C" "ansC" "Carol"
    (callInitiate "A" "C" "offerAC" "Alice" "profA" "chat3" 5 50
      (userOnline "C" (some 2) "sockC" 2 StoreResult.foundUser
        (userOnline "A" (some 1) "sockA" 1 StoreResult.foundUser
          initialState).state).state).state).state

theorem objGet_objSet_self {α : Type} (l : List (String × α)) (k : String) (v : α) :
    objGet (objSet l k v) k = some v := by
  induction l with
  | nil => simp [objGet, objSet]
  | cons p rest ih =>
    by_cases h : p.1 = k
    · simp [objGet, objSet, h]
    · simp [objGet, objSet, h, ih]

theorem objGet_objSet_ne {α : Type} (l : List (String × α)) (k k' : String) (v : α)
    (h : k' ≠ k) : objGet (objSet l k v) k' = objGet l k' := by
  have hk : ¬ k = k' := fun e => h e.symm
  induction l with
  | nil => simp [objGet, objSet, hk]
  | cons p rest ih =>
    by_cases hp : p.1 = k
    · have hpk : ¬ p.1 = k' := by rw [hp]; exact hk
      simp only [objSet, if_pos hp, objGet, if_neg hk, if_neg hpk]
    · simp only [objSet, if_neg hp, objGet]
      rw [ih]

theorem objGet_objDelete_self {α : Type} (l : List (String × α)) (k : String) :
    objGet (objDelete l k) k = none := by
  induction l with
  | nil => rfl
  | cons p rest ih =>
    by_cases h : p.1 = k
    · simp only [objDelete, if_pos h]
      exact ih
    · simp only [objDelete, if_neg h, objGet, if_neg h]
      exact ih

theorem objGet_objDelete_ne {α : Type} (l : List (String × α)) (k k' : String)
    (h : k' ≠ k) : objGet (objDelete l k) k' = objGet l k' := by
  induction l with
  | nil => rfl
  | cons p rest ih =>
    by_cases hp : p.1 = k
    · have hpk : ¬ p.1 = k' := by rw [hp]; exact fun e => h e.symm
      simp only [objDelete, if_pos hp, objGet, if_neg hpk]
      exact ih
    · simp only [objDelete, if_neg hp, objGet]
      rw [ih]

theorem objDelete_sublist {α : Type} (l : List (String × α)) (k : String) :
    List.Sublist (objDelete l k) l := by
  induction l with
  | nil => exact List.Sublist.refl _
  | cons p rest ih =>
    by_cases hp : p.1 = k
    · simp only [objDelete, if_pos hp]
      exact ih.cons p
    · simp only [objDelete, if_neg hp]
      exact ih.cons₂ p

theorem mem_keys_objSet {α : Type} (l : List (String × α)) (k x : String) (v : α)
    (h : x ∈ (objSet l k v).map Prod.fst) : x ∈ l.map Prod.fst ∨ x = k := by
  induction l with
  | nil =>
    simp only [objSet, List.map_cons, List.map_nil, List.mem_singleton] at h
    exact Or.inr h
  | cons p rest ih =>
    by_cases hp : p.1 = k
    · simp only [objSet, if_pos hp, List.map_cons, List.mem_cons] at h
      rcases h with h | h
      · exact Or.inr h
      · exact Or.inl (by rw [List.map_cons]; exact List.mem_cons_of_mem _ h)
    · simp only [objSet, if_neg hp, List.map_cons, List.mem_cons] at h
      rcases h with h | h
      · exact Or.inl (by rw [List.map_cons, h]; exact List.mem_cons_self _ _)
      · rcases ih h with h' | h'
        · exact Or.inl (by rw [List.map_cons]; exact List.mem_cons_of_mem _ h')
        · exact Or.inr h'

theorem keysNodup_objSet {α : Type} (l : List (String × α)) (k : String) (v : α)
    (h : keysNodup l) : keysNodup (objSet l k v) := by
  induction l with
  | nil => simp [keysNodup, objSet]
  | cons p rest ih =>
    simp only [keysNodup, List.map_cons, List.nodup_cons] at h
    obtain ⟨hp, hrest⟩ := h
    by_cases hk : p.1 = k
    · simp only [keysNodup, objSet, if_pos hk, List.map_cons, List.nodup_cons]
      exact ⟨hk ▸ hp, hrest⟩
    · simp only [keysNodup, objSet, if_neg hk, List.map_cons, List.nodup_cons]
      refine ⟨?_, ih hrest⟩
      intro hmem
      rcases mem_keys_objSet rest k p.1 v hmem with h' | h'
      · exact hp h'
      · exact hk h'

theorem keysNodup_objDelete {α : Type} (l : List (String × α)) (k : String)
    (h : keysNodup l) : keysNodup (objDelete l k) :=
  ((objDelete_sublist l k).map Prod.fst).nodup h

theorem keysNodup_clearPending (tbl : List (String × CallSession))
    (sess : Option CallSession) (k : String) (h : keysNodup tbl) :
    keysNodup (clearPending tbl sess k) := by
  unfold clearPending
  match sess with
  | none => exact h
  | some cs =>
    by_cases hc : cs.status ≠ CallStatus.connected
    · simpa [hc] using keysNodup_objDelete tbl k h
    · simpa [hc] using h

theorem userOnline_calls (uid : String) (loginTime : Option Nat) (socketId : String)
    (now : Nat) (store : StoreResult) (s : ServerState) :
    (userOnline uid loginTime socketId now store s).state.activeCallSessions =
      s.activeCallSessions := by
  cases store <;> rfl

theorem userOffline_calls (uid : String) (sockEpoch : Option Nat) (store : StoreResult)
    (s : ServerState) :
    (userOffline uid sockEpoch store s).state.activeCallSessions =
      s.activeCallSessions := by
  unfold userOffline
  split
  · cases store <;> rfl
  · rfl

theorem keysNodup_callInitiate (callerId receiverId offer callerName callerProfile
    chatId : String) (now tok : Nat) (s : ServerState)
    (h : keysNodup s.activeCallSessions) :
    keysNodup (callInitiate callerId receiverId offer callerName callerProfile
      chatId now tok s).state.activeCallSessions := by
  unfold callInitiate
  cases objGet s.userSockets receiverId with
  | none => exact h
  | some sock =>
    by_cases h1 : sessionConnected (objGet s.activeCallSessions receiverId)
    · simp only [if_pos h1]
      exact h
    · simp only [if_neg h1]
      by_cases h2 : sessionConnected (objGet s.activeCallSessions callerId)
      · simp only [if_pos h2]
        exact h
      · simp only [if_neg h2]
        exact keysNodup_objSet _ _ _ (keysNodup_objSet _ _ _
          (keysNodup_clearPending _ _ _ (keysNodup_clearPending _ _ _ h)))

theorem keysNodup_timerFire (callerId receiverId : String) (s : ServerState)
    (h : keysNodup s.activeCallSessions) :
    keysNodup (noAnswerTimerFire callerId receiverId s).state.activeCallSessions := by
  unfold noAnswerTimerFire
  cases objGet s.activeCallSessions receiverId with
  | none => exact h
  | some rs =>
    by_cases hr : rs.status = CallStatus.ringing
    · simp only [if_pos hr]
      exact keysNodup_objDelete _ _ (keysNodup_objDelete _ _ h)
    · simp only [if_neg hr]
      exact h

theorem keysNodup_callAccept (callerId receiverId answer receiverName : String)
    (s : ServerState) (h : keysNodup s.activeCallSessions) :
    keysNodup (callAccept callerId receiverId answer receiverName s).state.activeCallSessions := by
  unfold callAccept
  cases objGet s.activeCallSessions callerId with
  | none => exact h
  | some cs =>
    cases objGet s.activeCallSessions receiverId with
    | none => exact h
    | some rs => exact keysNodup_objSet _ _ _ (keysNodup_objSet _ _ _ h)

theorem keysNodup_callReject (callerId receiverId reason receiverName : String)
    (s : ServerState) (h : keysNodup s.activeCallSessions) :
    keysNodup (callReject callerId receiverId reason receiverName s).state.activeCallSessions :=
  keysNodup_objDelete _ _ (keysNodup_objDelete _ _ h)

theorem keysNodup_callEnd (callerId receiverId reason : String) (s : ServerState)
    (h : keysNodup s.activeCallSessions) :
    keysNodup (callEnd callerId receiverId reason s).state.activeCallSessions := by
  unfold callEnd
  cases objGet s.activeCallSessions callerId with
  | none =>
    cases objGet s.activeCallSessions receiverId with
    | none => exact h
    | some rs =>
      by_cases hr : rs.callerId = callerId ∧ rs.receiverId = receiverId
      · simp only [if_pos hr]
        exact keysNodup_objDelete _ _ h
      · simp only [if_neg hr]
        exact h
  | some cs =>
    by_cases hc : cs.callerId = callerId ∧ cs.receiverId = receiverId
    · simp only [if_pos hc]
      cases objGet s.activeCallSessions receiverId with
      | none => exact keysNodup_objDelete _ _ h
      | some rs =>
        by_cases hr : rs.callerId = callerId ∧ rs.receiverId = receiverId
        · simp only [if_pos hr]
          exact keysNodup_objDelete _ _ (keysNodup_objDelete _ _ h)
        · simp only [if_neg hr]
          exact keysNodup_objDelete _ _ h
    · simp only [if_neg hc]
      cases objGet s.activeCallSessions receiverId with
      | none => exact h
      | some rs =>
        by_cases hr : rs.callerId = callerId ∧ rs.receiverId = receiverId
        · simp only [if_pos hr]
          exact keysNodup_objDelete _ _ h
        · simp only [if_neg hr]
          exact h

theorem keysNodup_disconnect (sockUserId : Option String) (sockEpoch : Option Nat)
    (store : StoreResult) (s : ServerState) (h : keysNodup s.activeCallSessions) :
    keysNodup (disconnect sockUserId sockEpoch store s).state.activeCallSessions := by
  unfold disconnect
  cases sockUserId with
  | none => exact h
  | some userId =>
    by_cases hu : userId ≠ ""
    · simp only [if_pos hu]
      by_cases hg : epochGuard (objGet s.userLoginTime userId) sockEpoch
      · simp only [if_pos hg]
        cases objGet s.activeCallSessions userId with
        | none => exact h
        | some us => exact keysNodup_objDelete _ _ (keysNodup_objDelete _ _ h)
      · simp only [if_neg hg]
        exact h
    · simp only [if_neg hu]
      exact h

/-- Every reachable state keeps the call table's keys duplicate-free. -/
theorem reachable_keysNodup (s : ServerState) (h : Reachable s) :
    keysNodup s.activeCallSessions := by
  induction h with
  | empty => simp [keysNodup, initialState]
  | online uid lt sid now store h ih => rw [userOnline_calls]; exact ih
  | offline uid sockEpoch store h ih => rw [userOffline_calls]; exact ih
  | initiate cid rid offer cn cp chat now tok h ih => exact keysNodup_callInitiate _ _ _ _ _ _ _ _ _ ih
  | timerFire cid rid h ih => exact keysNodup_timerFire _ _ _ ih
  | accept cid rid ans rn h ih => exact keysNodup_callAccept _ _ _ _ _ ih
  | reject cid rid reason rn h ih => exact keysNodup_callReject _ _ _ _ _ ih
  | ended cid rid reason h ih => exact keysNodup_callEnd _ _ _ _ ih
  | disc su se store h ih => exact keysNodup_disconnect _ _ _ _ ih

theorem filter_key_length_le_one {α : Type} (l : List (String × α)) (uid : String)
    (h : keysNodup l) : (l.filter (fun p => decide (p.1 = uid))).length ≤ 1 := by
  induction l with
  | nil => simp
  | cons p rest ih =>
    simp only [keysNodup, List.map_cons, List.nodup_cons] at h
    obtain ⟨hp, hrest⟩ := h
    by_cases hu : p.1 = uid
    · have hnil : rest.filter (fun q => decide (q.1 = uid)) = [] := by
        refine List.filter_eq_nil_iff.2 ?_
        intro q hq
        simp only [decide_eq_true_eq]
        intro he
        exact hp (List.mem_map.mpr ⟨q, hq, by rw [he, hu]⟩)
      simp [List.filter_cons, hu, hnil]
    · simp only [List.filter_cons, hu, decide_False, if_false]
      exact ih hrest

/-- C8: `call:accept` emits `call:session-not-found` to the accepting
socket exactly when the entry for `callerId` or the entry for `receiverId`
is absent, and on that failure path the whole server state is unchanged. -/
theorem accept_session_not_found_iff (callerId receiverId answer receiverName : String)
    (s : ServerState) :
    ((callAccept callerId receiverId answer receiverName s).emits =
        [Emit.toSocket (OutEvent.callSessionNotFound callerId receiverId)] ↔
      (objGet s.activeCallSessions callerId = none ∨
        objGet s.activeCallSessions receiverId = none)) ∧
    ((objGet s.activeCallSessions callerId = none ∨
        objGet s.activeCallSessions receiverId = none) →
      (callAccept callerId receiverId answer receiverName s).state = s) := by
  cases hc : objGet s.activeCallSessions callerId with
  | none =>
    simp only [callAccept, hc]
    cases hr : objGet s.activeCallSessions receiverId <;> simp
  | some cs =>
    cases hr : objGet s.activeCallSessions receiverId with
    | none => simp [callAccept, hc, hr]
    | some rs => simp [callAccept, hc, hr]

/-- C8 witness: accepting on the empty initial state fails with
`call:session-not-found` and changes nothing. -/
theorem accept_session_not_found_iff_witness :
    (callAccept "x" "y" "ans" "Yvonne" initialState).emits =
      [Emit.toSocket (OutEvent.callSessionNotFound "x" "y")] ∧
    (callAccept "x" "y" "ans" "Yvonne" initialState).state = initialState := by
  have h := accept_session_not_found_iff "x" "y" "ans" "Yvonne" initialState
  exact ⟨h.1.mpr (Or.inl rfl), h.2 (Or.inl rfl)⟩

/-- C9: a `user-offline` (and likewise a `disconnect`) whose socket epoch
differs from the stored epoch is a complete no-op — state unchanged, no
emission; under a matching stored epoch `user-offline` removes both
registry entries and, unless the store write rejects, emits the offline
broadcast. -/
theorem stale_epoch_offline_noop :
    (∀ (uid : String) (e : Nat) (sockEpoch : Option Nat) (store : StoreResult)
      (s : ServerState),
      objGet s.userLoginTime uid = some e → sockEpoch ≠ some e →
      (userOffline uid sockEpoch store s).state = s ∧
        (userOffline uid sockEpoch store s).emits = []) ∧
    (∀ (uid : String) (e : Nat) (sockEpoch : Option Nat) (store : StoreResult)
      (s : ServerState),
      objGet s.userLoginTime uid = some e → sockEpoch ≠ some e →
      (disconnect (some uid) sockEpoch store s).state = s ∧
        (disconnect (some uid) sockEpoch store s).emits = []) ∧
    (∀ (uid : String) (sockEpoch : Option Nat) (store : StoreResult) (s : ServerState),
      epochGuard (objGet s.userLoginTime uid) sockEpoch = true →
      objGet (userOffline uid sockEpoch store s).state.userLoginTime uid = none ∧
      objGet (userOffline uid sockEpoch store s).state.userSockets uid = none ∧
      (store ≠ StoreResult.writeError →
        (userOffline uid sockEpoch store s).emits =
          [Emit.broadcastOthers (OutEvent.userStatusChanged uid "offline" none)])) := by
  refine ⟨?_, ?_, ?_⟩
  · intro uid e sockEpoch store s hstored hne
    have hg : epochGuard (objGet s.userLoginTime uid) sockEpoch = false := by
      rw [hstored]
      simp [epochGuard, hne]
    constructor <;> simp [userOffline, hg]
  · intro uid e sockEpoch store s hstored hne
    have hg : epochGuard (objGet s.userLoginTime uid) sockEpoch = false := by
      rw [hstored]
      simp [epochGuard, hne]
    constructor <;> by_cases hu : uid = "" <;> simp [disconnect, hu, hg]
  · intro uid sockEpoch store s hg
    refine ⟨?_, ?_, ?_⟩
    · cases store <;> simp [userOffline, hg, objGet_objDelete_self]
    · cases store <;> simp [userOffline, hg, objGet_objDelete_self]
    · intro hstore
      cases store with
      | foundUser => simp [userOffline, hg]
      | noUser => simp [userOffline, hg]
      | writeError => exact absurd rfl hstore

/-- C9 witness: with stored epoch 1 for u1, an offline tagged epoch 2 is a
no-op, and an offline tagged epoch 1 removes the entries and broadcasts. -/
theorem stale_epoch_offline_noop_witness :
    ((userOffline "u1" (some 2) StoreResult.foundUser
        (userOnline "u1" (some 1) "sock1" 7 StoreResult.foundUser initialState).state).state =
      (userOnline "u1" (some 1) "sock1" 7 StoreResult.foundUser initialState).state) ∧
    ((disconnect (some "u1") (some 2) StoreResult.foundUser
        (userOnline "u1" (some 1) "sock1" 7 StoreResult.foundUser initialState).state).emits = []) ∧
    ((userOffline "u1" (some 1) StoreResult.foundUser
        (userOnline "u1" (some 1) "sock1" 7 StoreResult.foundUser initialState).state).emits =
      [Emit.broadcastOthers (OutEvent.userStatusChanged "u1" "offline" none)]) := by
  refine ⟨?_, ?_, ?_⟩
  · exact (stale_epoch_offline_noop.1 "u1" 1 (some 2) StoreResult.foundUser
      (userOnline "u1" (some 1) "sock1" 7 StoreResult.foundUser initialState).state
      (by decide) (by decide)).1
  · exact (stale_epoch_offline_noop.2.1 "u1" 1 (some 2) StoreResult.foundUser
      (userOnline "u1" (some 1) "sock1" 7 StoreResult.foundUser initialState).state
      (by decide) (by decide)).2
  · exact ((stale_epoch_offline_noop.2.2 "u1" (some 1) StoreResult.foundUser
      (userOnline "u1" (some 1) "sock1" 7 StoreResult.foundUser initialState).state
      (by decide)).2.2 (by decide))

/-- C2: a no-answer timer fire that finds the receiver's entry still
ringing deletes both parties' entries and emits exactly `no_answer` to the
caller and `no_answer_timeout` to the receiver; a fire after a successful
accept, or after a reject, changes no state and emits nothing. -/
theorem no_answer_timer_semantics :
    (∀ (callerId receiverId : String) (s : ServerState) (rs : CallSession),
      objGet s.activeCallSessions receiverId = some rs →
      rs.status = CallStatus.ringing →
      (noAnswerTimerFire callerId receiverId s).state.activeCallSessions =
        objDelete (objDelete s.activeCallSessions callerId) receiverId ∧
      objGet (noAnswerTimerFire callerId receiverId s).state.activeCallSessions callerId = none ∧
      objGet (noAnswerTimerFire callerId receiverId s).state.activeCallSessions receiverId = none ∧
      (noAnswerTimerFire callerId receiverId s).emits =
        [Emit.toRoom callerId (OutEvent.callEnded callerId receiverId "no_answer"),
         Emit.toRoom receiverId (OutEvent.callEnded callerId receiverId "no_answer_timeout")]) ∧
    (∀ (callerId receiverId answer receiverName : String) (s : ServerState)
      (cs rs : CallSession),
      objGet s.activeCallSessions callerId = some cs →
      objGet s.activeCallSessions receiverId = some rs →
      noAnswerTimerFire callerId receiverId
          (callAccept callerId receiverId answer receiverName s).state =
        { state := (callAccept callerId receiverId answer receiverName s).state,
          emits := [], cancels := [], arms := [] }) ∧
    (∀ (callerId receiverId reason receiverName : String) (s : ServerState),
      noAnswerTimerFire callerId receiverId
          (callReject callerId receiverId reason receiverName s).state =
        { state := (callReject callerId receiverId reason receiverName s).state,
          emits := [], cancels := [], arms := [] }) := by
  refine ⟨?_, ?_, ?_⟩
  · intro callerId receiverId s rs hr hring
    have hdel : objGet (objDelete (objDelete s.activeCallSessions callerId) receiverId)
        receiverId = none := objGet_objDelete_self _ _
    have hdelc : objGet (objDelete (objDelete s.activeCallSessions callerId) receiverId)
        callerId = none := by
      by_cases hk : callerId = receiverId
      · rw [hk]
        exact objGet_objDelete_self _ _
      · rw [objGet_objDelete_ne _ _ _ hk]
        exact objGet_objDelete_self _ _
    simp [noAnswerTimerFire, hr, hring, hdel, hdelc]
  · intro callerId receiverId answer receiverName s cs rs hc hr
    have hconn : objGet (callAccept callerId receiverId answer receiverName s).state.activeCallSessions
        receiverId =
        some { rs with status := CallStatus.connected, noAnswerTimeout := none } := by
      simp only [callAccept, hc, hr]
      exact objGet_objSet_self _ _ _
    simp [noAnswerTimerFire, hconn]
  · intro callerId receiverId reason receiverName s
    have hnone : objGet (callReject callerId receiverId reason receiverName s).state.activeCallSessions
        receiverId = none := objGet_objDelete_self _ _
    simp [noAnswerTimerFire, hnone]

/-- C2 witness: firing the timer on the demo state where B is still
ringing emits the two asymmetric endings; firing after C accepted A's call,
or after B rejected, is a no-op. -/
theorem no_answer_timer_semantics_witness :
    ((noAnswerTimerFire "A" "B" demoS4).emits =
      [Emit.toRoom "A" (OutEvent.callEnded "A" "B" "no_answer"),
       Emit.toRoom "B" (OutEvent.callEnded "A" "B" "no_answer_timeout")]) ∧
    (noAnswerTimerFire "A" "C" busyS4 =
      { state := busyS4, emits := [], cancels := [], arms := [] }) ∧
    (noAnswerTimerFire "A" "B" (callReject "A" "B" "declined" "Bob" demoS4).state =
      { state := (callReject "A" "B" "declined" "Bob" demoS4).state,
        emits := [], cancels := [], arms := [] }) := by
  refine ⟨?_, ?_, ?_⟩
  · exact (no_answer_timer_semantics.1 "A" "B" demoS4
      { sessionId := "A-B-10", callerId := "A", receiverId := "B",
        status := CallStatus.ringing, startTime := 10, noAnswerTimeout := some 100 }
      (by decide) rfl).2.2.2
  · exact no_answer_timer_semantics.2.1 "A" "C" "ansC" "Carol"
      (callInitiate "A" "C" "offerAC" "Alice" "profA" "chat3" 5 50
        (userOnline "C" (some 2) "sockC" 2 StoreResult.foundUser
          (userOnline "A" (some 1) "sockA" 1 StoreResult.foundUser
            initialState).state).state).state
      { sessionId := "A-C-5", callerId := "A", receiverId := "C",
        status := CallStatus.calling, startTime := 5, noAnswerTimeout := some 50 }
      { sessionId := "A-C-5", callerId := "A", receiverId := "C",
        status := CallStatus.ringing, startTime := 5, noAnswerTimeout := some 50 }
      (by decide) (by decide)
  · exact no_answer_timer_semantics.2.2 "A" "B" "declined" "Bob" demoS4

theorem objGet_clearPending_ne (tbl : List (String × CallSession))
    (sess : Option CallSession) (k0 k : String) (h : k ≠ k0) :
    objGet (clearPending tbl sess k0) k = objGet tbl k := by
  unfold clearPending
  match sess with
  | none => rfl
  | some cs =>
    by_cases hc : cs.status ≠ CallStatus.connected
    · simp only [if_pos hc]
      exact objGet_objDelete_ne _ _ _ h
    · simp only [if_neg hc]

/-- C4: an `initiate` that passes the offline and busy checks creates two
linked entries — `calling` under the caller, `ringing` under the receiver —
sharing one sessionId built from the two ids and the clock, stores the
single 30-second timer token on both, leaves every other key and both
registry maps untouched, and emits `call:incoming` to the receiver only. -/
theorem initiate_success_creates_linked_pair
    (callerId receiverId offer callerName callerProfile chatId : String)
    (now tok : Nat) (s : ServerState) (sock : String)
    (hsock : objGet s.userSockets receiverId = some sock)
    (hrb : sessionConnected (objGet s.activeCallSessions receiverId) = false)
    (hcb : sessionConnected (objGet s.activeCallSessions callerId) = false)
    (hne : callerId ≠ receiverId) :
    objGet (callInitiate callerId receiverId offer callerName callerProfile chatId
        now tok s).state.activeCallSessions callerId =
      some { sessionId := callerId ++ "-" ++ receiverId ++ "-" ++ toString now,
             callerId := callerId, receiverId := receiverId,
             status := CallStatus.calling, startTime := now, noAnswerTimeout := some tok } ∧
    objGet (callInitiate callerId receiverId offer callerName callerProfile chatId
        now tok s).state.activeCallSessions receiverId =
      some { sessionId := callerId ++ "-" ++ receiverId ++ "-" ++ toString now,
             callerId := callerId, receiverId := receiverId,
             status := CallStatus.ringing, startTime := now, noAnswerTimeout := some tok } ∧
    (∀ k : String, k ≠ callerId → k ≠ receiverId →
      objGet (callInitiate callerId receiverId offer callerName callerProfile chatId
          now tok s).state.activeCallSessions k = objGet s.activeCallSessions k) ∧
    (callInitiate callerId receiverId offer callerName callerProfile chatId
        now tok s).emits =
      [Emit.toRoom receiverId (OutEvent.callIncoming callerId receiverId offer
        callerName callerProfile chatId
        (callerId ++ "-" ++ receiverId ++ "-" ++ toString now))] ∧
    (callInitiate callerId receiverId offer callerName callerProfile chatId
        now tok s).arms = [(tok, 30000)] ∧
    (callInitiate callerId receiverId offer callerName callerProfile chatId
        now tok s).state.userSockets = s.userSockets ∧
    (callInitiate callerId receiverId offer callerName callerProfile chatId
        now tok s).state.userLoginTime = s.userLoginTime := by
  simp only [callInitiate, hsock, hrb, hcb, Bool.false_eq_true, if_false]
  refine ⟨?_, ?_, ?_, trivial, trivial, trivial, trivial⟩
  · rw [objGet_objSet_ne _ _ _ _ hne]
    exact objGet_objSet_self _ _ _
  · exact objGet_objSet_self _ _ _
  · intro k hkc hkr
    rw [objGet_objSet_ne _ _ _ _ hkr, objGet_objSet_ne _ _ _ _ hkc,
      objGet_clearPending_ne _ _ _ _ hkr, objGet_clearPending_ne _ _ _ _ hkc]

/-- C4 witness: in the demo state with A, B, C online and no calls, A's
initiate to B creates the linked `calling`/`ringing` pair with session
`A-B-10` and token 100, leaves C's absence untouched, and emits only
`call:incoming` to B. -/
theorem initiate_success_creates_linked_pair_witness :
    objGet (callInitiate "A" "B" "offerAB" "Alice" "profA" "chat1" 10 100
        demoS3).state.activeCallSessions "A" =
      some { sessionId := "A" ++ "-" ++ "B" ++ "-" ++ toString 10, callerId := "A",
             receiverId := "B", status := CallStatus.calling, startTime := 10,
             noAnswerTimeout := some 100 } ∧
    objGet (callInitiate "A" "B" "offerAB" "Alice" "profA" "chat1" 10 100
        demoS3).state.activeCallSessions "B" =
      some { sessionId := "A" ++ "-" ++ "B" ++ "-" ++ toString 10, callerId := "A",
             receiverId := "B", status := CallStatus.ringing, startTime := 10,
             noAnswerTimeout := some 100 } ∧
    objGet (callInitiate "A" "B" "offerAB" "Alice" "profA" "chat1" 10 100
        demoS3).state.activeCallSessions "C" = objGet demoS3.activeCallSessions "C" ∧
    (callInitiate "A" "B" "offerAB" "Alice" "profA" "chat1" 10 100 demoS3).emits =
      [Emit.toRoom "B" (OutEvent.callIncoming "A" "B" "offerAB" "Alice" "profA" "chat1"
        ("A" ++ "-" ++ "B" ++ "-" ++ toString 10))] ∧
    (callInitiate "A" "B" "offerAB" "Alice" "profA" "chat1" 10 100 demoS3).arms =
      [(100, 30000)] := by
  have h := initiate_success_creates_linked_pair "A" "B" "offerAB" "Alice" "profA"
    "chat1" 10 100 demoS3 "sockB" (by decide) (by decide) (by decide) (by decide)
  exact ⟨h.1, h.2.1, h.2.2.1 "C" (by decide) (by decide), h.2.2.2.1, h.2.2.2.2.1⟩

/-- C5 counterexample: `busyS4` is reachable, caller A's entry there is
connected, yet `initiate(A, B)` with B unregistered fails with
`call:user-offline`, not with `call:busy` — refuting "always fails with
Busy" when either party is connected. -/
theorem initiate_busy_counterexample :
    Reachable busyS4 ∧
    sessionConnected (objGet busyS4.activeCallSessions "A") = true ∧
    objGet busyS4.userSockets "B" = none ∧
    (callInitiate "A" "B" "offerAB" "Alice" "profA" "chat1" 30 300 busyS4).emits =
      [Emit.toSocket (OutEvent.callUserOffline "B" "User is offline")] := by
  refine ⟨?_, by decide, by decide, by decide⟩
  exact Reachable.accept "A" "C" "ansC" "Carol"
    (Reachable.initiate "A" "C" "offerAC" "Alice" "profA" "chat3" 5 50
      (Reachable.online "C" (some 2) "sockC" 2 StoreResult.foundUser
        (Reachable.online "A" (some 1) "sockA" 1 StoreResult.foundUser
          Reachable.empty)))

/-- C5 amended: provided the receiver is registered as online, an
`initiate` where either party's entry is connected fails with `call:busy`
to the caller only — "User is already on another call" when the receiver is
connected, otherwise "You are already in a call" — and the whole server
state, timers included, is left unmodified. -/
theorem initiate_busy_amended
    (callerId receiverId offer callerName callerProfile chatId : String)
    (now tok : Nat) (s : ServerState) (sock : String)
    (hsock : objGet s.userSockets receiverId = some sock)
    (hbusy : sessionConnected (objGet s.activeCallSessions receiverId) = true ∨
      sessionConnected (objGet s.activeCallSessions callerId) = true) :
    (callInitiate callerId receiverId offer callerName callerProfile chatId
        now tok s).state = s ∧
    (callInitiate callerId receiverId offer callerName callerProfile chatId
        now tok s).arms = [] ∧
    (callInitiate callerId receiverId offer callerName callerProfile chatId
        now tok s).cancels = [] ∧
    (callInitiate callerId receiverId offer callerName callerProfile chatId
        now tok s).emits =
      [Emit.toSocket (OutEvent.callBusy receiverId
        (if sessionConnected (objGet s.activeCallSessions receiverId) then
          "User is already on another call"
         else "You are already in a call"))] := by
  by_cases hr : sessionConnected (objGet s.activeCallSessions receiverId) = true
  · simp [callInitiate, hsock, hr]
  · have hc : sessionConnected (objGet s.activeCallSessions callerId) = true := by
      rcases hbusy with h | h
      · exact absurd h hr
      · exact h
    simp [callInitiate, hsock, hr, hc]

/-- C5 amended witness: in `busyS4` (A and C connected), A's initiate to
registered C reports "User is already on another call" and changes
nothing. -/
theorem initiate_busy_amended_witness :
    (callInitiate "A" "C" "offerAC2" "Alice" "profA" "chat4" 40 400 busyS4).state =
      busyS4 ∧
    (callInitiate "A" "C" "offerAC2" "Alice" "profA" "chat4" 40 400 busyS4).emits =
      [Emit.toSocket (OutEvent.callBusy "C" "User is already on another call")] := by
  have h := initiate_busy_amended "A" "C" "offerAC2" "Alice" "profA" "chat4" 40 400
    busyS4 "sockC" (by decide) (Or.inl (by decide))
  refine ⟨h.1, ?_⟩
  rw [h.2.2.2]
  decide

/-- C6: `call:end` deletes a party's entry only when that entry's stored
`(callerId, receiverId)` pair equals the pair being ended — entries whose
pair differs survive unchanged, matching entries under the two keys are
removed — and the two `ended{reason}` notifications to receiver and caller
are emitted unconditionally, so a duplicate end with no entries left is a
state no-op that still notifies both. -/
theorem end_matching_delete_unconditional_notify
    (callerId receiverId reason : String) (s : ServerState)
    (hcne : callerId ≠ "") (hrne : receiverId ≠ "") :
    ((callEnd callerId receiverId reason s).emits =
      [Emit.toRoom receiverId (OutEvent.callEnded callerId receiverId reason),
       Emit.toRoom callerId (OutEvent.callEnded callerId receiverId reason)]) ∧
    (∀ (k : String) (cs : CallSession), objGet s.activeCallSessions k = some cs →
      ¬(cs.callerId = callerId ∧ cs.receiverId = receiverId) →
      objGet (callEnd callerId receiverId reason s).state.activeCallSessions k = some cs) ∧
    (∀ cs : CallSession, objGet s.activeCallSessions callerId = some cs →
      cs.callerId = callerId → cs.receiverId = receiverId →
      objGet (callEnd callerId receiverId reason s).state.activeCallSessions callerId = none) ∧
    (∀ rs : CallSession, objGet s.activeCallSessions receiverId = some rs →
      rs.callerId = callerId → rs.receiverId = receiverId →
      objGet (callEnd callerId receiverId reason s).state.activeCallSessions receiverId = none) ∧
    (objGet s.activeCallSessions callerId = none →
      objGet s.activeCallSessions receiverId = none →
      (callEnd callerId receiverId reason s).state = s) := by
  refine ⟨by simp [callEnd, hcne, hrne], ?_, ?_, ?_, ?_⟩
  · intro k cs hk hnm
    cases hcall : objGet s.activeCallSessions callerId with
    | none =>
      cases hrecv : objGet s.activeCallSessions receiverId with
      | none =>
        simp only [callEnd, hcall, hrecv]
        exact hk
      | some rs =>
        by_cases hm : rs.callerId = callerId ∧ rs.receiverId = receiverId
        · have hkr : k ≠ receiverId := by
            intro e
            rw [e, hrecv] at hk
            injection hk with h
            exact hnm (h ▸ hm)
          simp only [callEnd, hcall, hrecv, if_pos hm]
          rw [objGet_objDelete_ne _ _ _ hkr]
          exact hk
        · simp only [callEnd, hcall, hrecv, if_neg hm]
          exact hk
    | some cs' =>
      by_cases hmc : cs'.callerId = callerId ∧ cs'.receiverId = receiverId
      · have hkc : k ≠ callerId := by
          intro e
          rw [e, hcall] at hk
          injection hk with h
          exact hnm (h ▸ hmc)
        cases hrecv : objGet s.activeCallSessions receiverId with
        | none =>
          simp only [callEnd, hcall, hrecv, if_pos hmc]
          rw [objGet_objDelete_ne _ _ _ hkc]
          exact hk
        | some rs =>
          by_cases hm : rs.callerId = callerId ∧ rs.receiverId = receiverId
          · have hkr : k ≠ receiverId := by
              intro e
              rw [e, hrecv] at hk
              injection hk with h
              exact hnm (h ▸ hm)
            simp only [callEnd, hcall, hrecv, if_pos hmc, if_pos hm]
            rw [objGet_objDelete_ne _ _ _ hkr, objGet_objDelete_ne _ _ _ hkc]
            exact hk
          · simp only [callEnd, hcall, hrecv, if_pos hmc, if_neg hm]
            rw [objGet_objDelete_ne _ _ _ hkc]
            exact hk
      · cases hrecv : objGet s.activeCallSessions receiverId with
        | none =>
          simp only [callEnd, hcall, hrecv, if_neg hmc]
          exact hk
        | some rs =>
          by_cases hm : rs.callerId = callerId ∧ rs.receiverId = receiverId
          · have hkr : k ≠ receiverId := by
              intro e
              rw [e, hrecv] at hk
              injection hk with h
              exact hnm (h ▸ hm)
            simp only [callEnd, hcall, hrecv, if_neg hmc, if_pos hm]
            rw [objGet_objDelete_ne _ _ _ hkr]
            exact hk
          · simp only [callEnd, hcall, hrecv, if_neg hmc, if_neg hm]
            exact hk
  · intro cs hcall hc hr
    simp only [callEnd, hcall, if_pos (And.intro hc hr)]
    cases hrecv : objGet s.activeCallSessions receiverId with
    | none => exact objGet_objDelete_self _ _
    | some rs =>
      by_cases hm : rs.callerId = callerId ∧ rs.receiverId = receiverId
      · simp only [if_pos hm]
        by_cases hkr : callerId = receiverId
        · rw [hkr]
          exact objGet_objDelete_self _ _
        · rw [objGet_objDelete_ne _ _ _ hkr]
          exact objGet_objDelete_self _ _
      · simp only [if_neg hm]
        exact objGet_objDelete_self _ _
  · intro rs hrecv hc hr
    simp only [callEnd, hrecv, if_pos (And.intro hc hr)]
    cases hcall : objGet s.activeCallSessions callerId with
    | none => exact objGet_objDelete_self _ _
    | some cs =>
      by_cases hm : cs.callerId = callerId ∧ cs.receiverId = receiverId
      · simp only [if_pos hm]
        exact objGet_objDelete_self _ _
      · simp only [if_neg hm]
        exact objGet_objDelete_self _ _
  · intro hcall hrecv
    simp [callEnd, hcall, hrecv]

/-- C6 witness: after A and C's call is ended, a duplicate
`end(A, C, "hangup")` leaves the state unchanged and still notifies both. -/
theorem end_matching_delete_unconditional_notify_witness :
    ((callEnd "A" "C" "hangup" (callEnd "A" "C" "hangup" busyS4).state).state =
      (callEnd "A" "C" "hangup" busyS4).state) ∧
    ((callEnd "A" "C" "hangup" (callEnd "A" "C" "hangup" busyS4).state).emits =
      [Emit.toRoom "C" (OutEvent.callEnded "A" "C" "hangup"),
       Emit.toRoom "A" (OutEvent.callEnded "A" "C" "hangup")]) := by
  have h := end_matching_delete_unconditional_notify "A" "C" "hangup"
    (callEnd "A" "C" "hangup" busyS4).state (by decide) (by decide)
  exact ⟨h.2.2.2.2 (by decide) (by decide), h.1⟩

/-- C7: an authoritative-session disconnect of a user with a truthy id
holding a call entry sends `call:ended{disconnected}` to exactly the other
participant of that entry, clears the entry's pending timer, and removes
both parties' entries. -/
theorem disconnect_in_call
    (userId : String) (sockEpoch : Option Nat) (store : StoreResult) (s : ServerState)
    (us : CallSession) (other : String)
    (hu : userId ≠ "")
    (hg : epochGuard (objGet s.userLoginTime userId) sockEpoch = true)
    (hus : objGet s.activeCallSessions userId = some us)
    (hother : other = (if us.callerId = userId then us.receiverId else us.callerId))
    (hne : other ≠ "") :
    ((disconnect (some userId) sockEpoch store s).emits.filter isCallEnded =
      [Emit.toRoom other (OutEvent.callEnded us.callerId us.receiverId "disconnected")]) ∧
    ((disconnect (some userId) sockEpoch store s).cancels = us.noAnswerTimeout.toList) ∧
    objGet (disconnect (some userId) sockEpoch store s).state.activeCallSessions
      userId = none ∧
    objGet (disconnect (some userId) sockEpoch store s).state.activeCallSessions
      other = none := by
  have hoth : (if us.callerId = userId then us.receiverId else us.callerId) = other :=
    hother.symm
  refine ⟨?_, ?_, ?_, ?_⟩
  · cases store <;>
      simp [disconnect, hu, hg, hus, hoth, hne, isCallEnded, List.filter_cons]
  · simp only [disconnect, if_pos hu, hg, if_true, hus]
    cases store <;> cases htok : us.noAnswerTimeout <;>
      simp [timeoutToks, htok, Option.toList]
  · simp only [disconnect, if_pos hu, hg, if_true, hus, hoth]
    have : objGet (objDelete (objDelete s.activeCallSessions userId) other)
        userId = none := by
      by_cases hk : userId = other
      · rw [hk]
        exact objGet_objDelete_self _ _
      · rw [objGet_objDelete_ne _ _ _ hk]
        exact objGet_objDelete_self _ _
    cases store <;> simpa using this
  · simp only [disconnect, if_pos hu, hg, if_true, hus, hoth]
    cases store <;> simpa using objGet_objDelete_self
      (objDelete s.activeCallSessions userId) other

/-- C7 witness: A, connected with C in `busyS4`, disconnects with its
authoritative epoch: C alone is notified with `disconnected`, no timer is
pending, and both entries are gone. -/
theorem disconnect_in_call_witness :
    ((disconnect (some "A") (some 1) StoreResult.foundUser busyS4).emits.filter
        isCallEnded =
      [Emit.toRoom "C" (OutEvent.callEnded "A" "C" "disconnected")]) ∧
    ((disconnect (some "A") (some 1) StoreResult.foundUser busyS4).cancels = []) ∧
    objGet (disconnect (some "A") (some 1) StoreResult.foundUser
      busyS4).state.activeCallSessions "A" = none ∧
    objGet (disconnect (some "A") (some 1) StoreResult.foundUser
      busyS4).state.activeCallSessions "C" = none := by
  exact disconnect_in_call "A" (some 1) StoreResult.foundUser busyS4
    { sessionId := "A-C-5", callerId := "A", receiverId := "C",
      status := CallStatus.connected, startTime := 5, noAnswerTimeout := none }
    "C" (by decide) (by decide) (by decide) (by decide) (by decide)

/-- C1: in every reachable state of the coordinator, each userId keys at
most one entry of the active-call table. -/
theorem at_most_one_session_per_user (s : ServerState) (h : Reachable s)
    (uid : String) :
    (s.activeCallSessions.filter (fun p => decide (p.1 = uid))).length ≤ 1 :=
  filter_key_length_le_one _ _ (reachable_keysNodup s h)

/-- C1 witness: the demo state reached by two overlapping initiates keeps a
single entry for B. -/
theorem at_most_one_session_per_user_witness :
    (demoS5.activeCallSessions.filter (fun p => decide (p.1 = "B"))).length ≤ 1 :=
  at_most_one_session_per_user demoS5
    (Reachable.initiate "C" "B" "offerCB" "Carol" "profC" "chat2" 20 200
      (Reachable.initiate "A" "B" "offerAB" "Alice" "profA" "chat1" 10 100
        (Reachable.online "C" (some 3) "sockC" 3 StoreResult.foundUser
          (Reachable.online "B" (some 2) "sockB" 2 StoreResult.foundUser
            (Reachable.online "A" (some 1) "sockA" 1 StoreResult.foundUser
              Reachable.empty)))))
    "B"

/-- C3 counterexample: when the store lookup finds no user record, or the
store write rejects, `user-online` emits no presence broadcast at all —
refuting "the online broadcast is emitted regardless of the store
outcome"; only the found-and-updated outcome broadcasts. -/
theorem online_broadcast_counterexample :
    (userOnline "u1" (some 5) "sock1" 10 StoreResult.noUser initialState).emits = [] ∧
    (userOnline "u1" (some 5) "sock1" 10 StoreResult.writeError initialState).emits = [] ∧
    (userOnline "u1" (some 5) "sock1" 10 StoreResult.foundUser initialState).emits =
      [Emit.broadcastAll (OutEvent.userStatusChanged "u1" "online" (some 5))] :=
  ⟨rfl, rfl, rfl⟩

/-- C3 amended: `user-online` updates the in-memory registry (socket and
epoch) before and regardless of the store outcome, but the online
presence-changed broadcast is emitted only when the awaited store write
succeeds and finds the user record; on a missing record or write failure
the broadcast is suppressed while the registry update stands. -/
theorem online_broadcast_amended (uid : String) (loginTime : Option Nat)
    (socketId : String) (now : Nat) (store : StoreResult) (s : ServerState) :
    objGet (userOnline uid loginTime socketId now store s).state.userSockets uid =
      some socketId ∧
    objGet (userOnline uid loginTime socketId now store s).state.userLoginTime uid =
      some (jsOr loginTime now) ∧
    (store = StoreResult.foundUser →
      (userOnline uid loginTime socketId now store s).emits =
        [Emit.broadcastAll
          (OutEvent.userStatusChanged uid "online" (some (jsOr loginTime now)))]) ∧
    (store ≠ StoreResult.foundUser →
      (userOnline uid loginTime socketId now store s).emits = []) := by
  cases store with
  | foundUser =>
    refine ⟨objGet_objSet_self _ _ _, objGet_objSet_self _ _ _, fun _ => rfl, ?_⟩
    intro h
    exact absurd rfl h
  | noUser =>
    refine ⟨objGet_objSet_self _ _ _, objGet_objSet_self _ _ _, ?_, fun _ => rfl⟩
    intro h
    exact absurd h (by decide)
  | writeError =>
    refine ⟨objGet_objSet_self _ _ _, objGet_objSet_self _ _ _, ?_, fun _ => rfl⟩
    intro h
    exact absurd h (by decide)

/-- C3 amended witness: the missing-record outcome registers sock1 under u1
yet emits nothing. -/
theorem online_broadcast_amended_witness :
    objGet (userOnline "u1" (some 5) "sock1" 10 StoreResult.noUser
      initialState).state.userSockets "u1" = some "sock1" ∧
    (userOnline "u1" (some 5) "sock1" 10 StoreResult.noUser initialState).emits = [] := by
  have h := online_broadcast_amended "u1" (some 5) "sock1" 10 StoreResult.noUser
    initialState
  exact ⟨h.1, h.2.2.2 (by decide)⟩

/-- C10: `call:accept` checks only that an entry exists under each of the
two ids — it never compares their stored sessionIds or pairs — so whenever
both lookups succeed it connects both entries and relays the answer; and a
state is reachable (A calls B, then C calls B evicting B's first ringing
entry) in which accept succeeds on two entries whose sessionIds differ. -/
theorem accept_ignores_session_identity :
    (∀ (callerId receiverId answer receiverName : String) (s : ServerState)
      (cs rs : CallSession),
      objGet s.activeCallSessions callerId = some cs →
      objGet s.activeCallSessions receiverId = some rs →
      (callAccept callerId receiverId answer receiverName s).emits =
        [Emit.toRoom callerId
          (OutEvent.callAnswerReceived callerId receiverId answer receiverName),
         Emit.toRoom callerId (OutEvent.callAcceptedNotice callerId receiverId),
         Emit.toRoom receiverId (OutEvent.callAcceptedNotice callerId receiverId)] ∧
      objGet (callAccept callerId receiverId answer receiverName
          s).state.activeCallSessions receiverId =
        some { rs with status := CallStatus.connected, noAnswerTimeout := none } ∧
      (callerId ≠ receiverId →
        objGet (callAccept callerId receiverId answer receiverName
            s).state.activeCallSessions callerId =
          some { cs with status := CallStatus.connected, noAnswerTimeout := none })) ∧
    (∃ s' : ServerState, Reachable s' ∧ ∃ cs rs : CallSession,
      objGet s'.activeCallSessions "A" = some cs ∧
      objGet s'.activeCallSessions "B" = some rs ∧
      cs.sessionId ≠ rs.sessionId ∧
      (callAccept "A" "B" "ansB" "Bob" s').emits =
        [Emit.toRoom "A" (OutEvent.callAnswerReceived "A" "B" "ansB" "Bob"),
         Emit.toRoom "A" (OutEvent.callAcceptedNotice "A" "B"),
         Emit.toRoom "B" (OutEvent.callAcceptedNotice "A" "B")]) := by
  constructor
  · intro callerId receiverId answer receiverName s cs rs hc hr
    refine ⟨?_, ?_, ?_⟩
    · simp [callAccept, hc, hr]
    · simp only [callAccept, hc, hr]
      exact objGet_objSet_self _ _ _
    · intro hne
      simp only [callAccept, hc, hr]
      rw [objGet_objSet_ne _ _ _ _ hne]
      exact objGet_objSet_self _ _ _
  · refine ⟨demoS5, ?_, ?_⟩
    · exact Reachable.initiate "C" "B" "offerCB" "Carol" "profC" "chat2" 20 200
        (Reachable.initiate "A" "B" "offerAB" "Alice" "profA" "chat1" 10 100
          (Reachable.online "C" (some 3) "sockC" 3 StoreResult.foundUser
            (Reachable.online "B" (some 2) "sockB" 2 StoreResult.foundUser
              (Reachable.online "A" (some 1) "sockA" 1 StoreResult.foundUser
                Reachable.empty))))
    · exact ⟨staleAB, freshCB, by decide, by decide, by decide, by decide⟩

/-- C10 witness: accepting A's stale pairing against B's newer entry in the
demo state succeeds and relays the answer to A. -/
theorem accept_ignores_session_identity_witness :
    (callAccept "A" "B" "ansB" "Bob" demoS5).emits =
      [Emit.toRoom "A" (OutEvent.callAnswerReceived "A" "B" "ansB" "Bob"),
       Emit.toRoom "A" (OutEvent.callAcceptedNotice "A" "B"),
       Emit.toRoom "B" (OutEvent.callAcceptedNotice "A" "B")] :=
  (accept_ignores_session_identity.1 "A" "B" "ansB" "Bob" demoS5 staleAB freshCB
    (by decide) (by decide)).1

end ChatServer
